import Mathlib

/-!
Shallow embedding of `src/multi-model-endpoint/container/model_handler.py`.

The Python module defines a class `ModelHandler` with lifecycle methods
(`initialize`, `preprocess`, `inference`, `postprocess`, `handle`), a
module-level singleton `_service`, and a module-level dispatch function
`handle(data, context)`.

Embedding conventions:
- Handler state (`self`) is the structure `ModelHandler`; every method takes
  the state explicitly and, where the source mutates `self`, returns the
  updated state.
- Python exceptions are the inductive `PyError`; a method that can raise
  returns `Except PyError _` (or a pair `state × Option PyError` where the
  source mutates state before raising).
- The model directory (the filesystem the handler touches) is `ModelDir`:
  the list of basenames present in `context.system_properties["model_dir"]`,
  in the order the glob returns them, plus the parsed JSON content of each
  params file.
- Request byte payloads are modeled after UTF-8 decoding (field `body`);
  decode failures are outside the claims considered here.
- The third-party `pke.unsupervised.TopicalPageRank` extractor object is
  modeled syntactically as the trace of operations applied to the mutable
  object since its construction (`Extractor.ops`); `get_n_best` returns,
  abstractly, a value determined by the object's accumulated state and `n`.
  This mirrors exactly which calls the handler makes on which object, which
  is the part of the behavior the source code itself determines.
-/

namespace MME

/-- Decidable equality for `Except`, used to evaluate the executable
embedding on concrete inputs. -/
instance {ε α : Type} [DecidableEq ε] [DecidableEq α] : DecidableEq (Except ε α) := fun x y =>
  match x, y with
  | Except.error a, Except.error b =>
    if h : a = b then Decidable.isTrue (h ▸ rfl)
    else Decidable.isFalse (fun hc => h (Except.error.inj hc))
  | Except.error _, Except.ok _ => Decidable.isFalse (fun hc => Except.noConfusion hc)
  | Except.ok _, Except.error _ => Decidable.isFalse (fun hc => Except.noConfusion hc)
  | Except.ok a, Except.ok b =>
    if h : a = b then Decidable.isTrue (h ▸ rfl)
    else Decidable.isFalse (fun hc => h (Except.ok.inj hc))

/-- Python exception values raised (or propagated) by the handler.
`indexError` is the `IndexError` from subscripting an empty `glob` result;
`typeError` is the `TypeError` from subscripting `None`;
`keyError k` is the `KeyError` from a missing JSON key `k`;
`nameError n` is the `NameError`/`UnboundLocalError` for an unbound local `n`;
`missingFile p` is the `RuntimeError("Missing <p> file.")`;
`unsupportedModel d` is the `RuntimeError("Model <d> not supported!")`;
`memoryError` is the bare `MemoryError` re-raised by `initialize`. -/
inductive PyError where
  | indexError
  | typeError
  | keyError (key : String)
  | nameError (name : String)
  | missingFile (path : String)
  | unsupportedModel (desc : String)
  | memoryError
deriving DecidableEq

/-- The JSON parameter file content, restricted to the keys the handler
reads (`grammar`, `language`, `normalization`, `window`, `max_count`).
Each field is `none` when the key is absent from the JSON object. -/
structure ModelParams where
  grammar : Option String
  language : Option String
  normalization : Option String
  window : Option Nat
  max_count : Option Nat
deriving DecidableEq

/-- The model directory: `files` are the basenames present (in glob order),
`paramsOf` gives the parsed JSON content of a params file by basename. -/
structure ModelDir where
  files : List String
  paramsOf : String → ModelParams

/-- The server context: `system_properties["model_dir"]` names the model
directory, embedded here by its contents. -/
structure Context where
  modelDir : ModelDir

/-- The state of a `ModelHandler` instance (`self` in the source):
`initialized`, `model` (the source stores a filesystem path string here for
both supported model types), `model_type`, and `model_params`. -/
structure ModelHandler where
  initialized : Bool
  model : Option String
  model_type : Option String
  model_params : Option ModelParams
deriving DecidableEq

/-- Python `str()` of an `Optional[str]` as used by
`"Model {} not supported!".format(self.model_type)`. -/
def pyStr : Option String → String
  | none => "None"
  | some s => s

/-- The sentinel suffix `sym_file_suffix = "-params.json"`. -/
def sym_file_suffix : String := "-params.json"

/-- Whether `p` is an initial segment of `cs` (structural helper for the
string operations below). -/
def charsStartWith : List Char → List Char → Bool
  | [], _ => true
  | _ :: _, [] => false
  | p :: ps, c :: cs => p == c && charsStartWith ps cs

/-- Whether the filename `s` matches the glob pattern `*<suffix>`, that is,
ends with `suffix`. -/
def strEndsWith (s suffix : String) : Bool :=
  charsStartWith suffix.data.reverse s.data.reverse

/-- The characters of `cs` before the first occurrence of `sep`; the whole
list when `sep` does not occur.  This is Python `s.split(sep)[0]` for a
non-empty separator. -/
def charsBeforeSep (sep : List Char) : List Char → List Char
  | [] => []
  | c :: cs => if charsStartWith sep (c :: cs) then [] else c :: charsBeforeSep sep cs

/-- Derivation of the checkpoint prefix from the matched filename:
`os.path.basename(f).split(sym_file_suffix)[0]` (files are stored as
basenames). -/
def derivePfx (f : String) : String :=
  String.mk (charsBeforeSep sym_file_suffix.data f.data)

/-- `ModelHandler.get_model_files_prefix` from the source: glob the model
directory for `*-params.json` and take element `[0]` of the result, deriving
the prefix from its basename.  An empty glob result raises `IndexError`;
multiple matches are silently resolved to the first. -/
def modelFilesPfx (dir : ModelDir) : Except PyError String :=
  match dir.files.filter (fun f => strEndsWith f sym_file_suffix) with
  | [] => Except.error PyError.indexError
  | f :: _ => Except.ok (derivePfx f)

/-- `ModelHandler.read_model_params`: checks that
`<checkpoint_pfx>-params.json` is a file, raising
`RuntimeError("Missing ... file.")` otherwise, then loads the JSON into
`self.model_params`. -/
def read_model_params (dir : ModelDir) (s : ModelHandler) (checkpoint_pfx : String) :
    Except PyError ModelHandler :=
  if dir.files.contains (checkpoint_pfx ++ "-params.json") then
    Except.ok { s with model_params := some (dir.paramsOf (checkpoint_pfx ++ "-params.json")) }
  else
    Except.error (PyError.missingFile (checkpoint_pfx ++ "-params.json"))

/-- The body of the `try` block in `ModelHandler.initialize` (artifact
resolution): for a recognized `model_type` (equal to `checkpoint_pfx`),
assign `self.model` the path `<checkpoint_pfx>-model`, then raise a
missing-file `RuntimeError` if that file is absent; for any other type,
raise the unsupported-model `RuntimeError`.  The state component records
the mutation of `self.model`, which happens before the existence check. -/
def loadModelArtifact (dir : ModelDir) (checkpoint_pfx : String) (s : ModelHandler) :
    ModelHandler × Option PyError :=
  if checkpoint_pfx == "TopicalPageRank" || checkpoint_pfx == "DocSim" then
    if dir.files.contains (checkpoint_pfx ++ "-model") then
      ({ s with model := some (checkpoint_pfx ++ "-model") }, none)
    else
      ({ s with model := some (checkpoint_pfx ++ "-model") },
        some (PyError.missingFile (checkpoint_pfx ++ "-model")))
  else
    (s, some (PyError.unsupportedModel checkpoint_pfx))

/-- The `except Exception as e: ... raise MemoryError` clause wrapped around
artifact resolution in `ModelHandler.initialize`: whatever error the body
raised, the surfaced error is the bare `MemoryError`, carrying no detail of
the underlying cause. -/
def wrapTry (r : ModelHandler × Option PyError) : ModelHandler × Option PyError :=
  match r with
  | (s4, none) => (s4, none)
  | (s4, some _) => (s4, some PyError.memoryError)

/-- `ModelHandler.initialize` from the source.  Its first statement is
`self.initialized = True`; it then derives the checkpoint prefix (possible
`IndexError`), stores it in `self.model_type`, reads the params file
(possible missing-file `RuntimeError`), and runs artifact resolution inside
`try: ... except Exception: raise MemoryError` — so every error raised in
that block, missing model file and unsupported model alike, is surfaced as
the bare generic `MemoryError`. -/
def ModelHandler.init (s : ModelHandler) (context : Context) : ModelHandler × Option PyError :=
  match modelFilesPfx context.modelDir with
  | Except.error e => ({ s with initialized := true }, some e)
  | Except.ok cp =>
    match read_model_params context.modelDir
        { s with initialized := true, model_type := some cp } cp with
    | Except.error e => ({ s with initialized := true, model_type := some cp }, some e)
    | Except.ok s3 => wrapTry (loadModelArtifact context.modelDir cp s3)

/-- A raw request entry; `body` is the entry's byte payload, modeled after
UTF-8 decoding (`data.get('body').decode("utf-8")`). -/
structure Request where
  body : String
deriving DecidableEq

/-- `ModelHandler.preprocess`: for both recognized model types it returns
the ordered list of decoded texts (the source has a single branch covering
`"TopicalPageRank"` and `"DocSim"` alike); any other `model_type` raises the
unsupported-model `RuntimeError`. -/
def ModelHandler.preprocess (s : ModelHandler) (request : List Request) :
    Except PyError (List String) :=
  if s.model_type == some "TopicalPageRank" || s.model_type == some "DocSim" then
    Except.ok (request.map Request.body)
  else
    Except.error (PyError.unsupportedModel (pyStr s.model_type))

/-- An operation applied to the third-party extractor object.  Arguments
record exactly what the handler passes: the input text with the configured
language and normalization, the configured grammar, and the window, the
fixed part-of-speech set, and `self.model` as `lda_model`. -/
inductive ExtractorOp where
  | loadDocument (input language normalization : String)
  | candidateSelection (grammar : String)
  | candidateWeighting (window : Nat) (pos : List String) (lda_model : Option String)
deriving DecidableEq

/-- Result of `get_n_best`: determined by the extractor's accumulated state
and the requested count `n`. -/
abbrev NBest := List ExtractorOp × Nat

/-- The `pke.unsupervised.TopicalPageRank` extractor object, modeled as the
trace of operations applied to it since construction. -/
structure Extractor where
  ops : List ExtractorOp
deriving DecidableEq

/-- `pke.unsupervised.TopicalPageRank()`: a freshly constructed extractor. -/
def TopicalPageRank_new : Extractor := { ops := [] }

/-- `extractor.load_document(input=..., language=..., normalization=...)`. -/
def Extractor.load_document (e : Extractor) (input language normalization : String) : Extractor :=
  { ops := e.ops ++ [ExtractorOp.loadDocument input language normalization] }

/-- `extractor.candidate_selection(grammar=...)`. -/
def Extractor.candidate_selection (e : Extractor) (grammar : String) : Extractor :=
  { ops := e.ops ++ [ExtractorOp.candidateSelection grammar] }

/-- `extractor.candidate_weighting(window=..., pos=..., lda_model=...)`. -/
def Extractor.candidate_weighting (e : Extractor) (window : Nat) (pos : List String)
    (lda_model : Option String) : Extractor :=
  { ops := e.ops ++ [ExtractorOp.candidateWeighting window pos lda_model] }

/-- `extractor.get_n_best(n=...)`: a value determined by the extractor's
accumulated state and `n`. -/
def Extractor.get_n_best (e : Extractor) (n : Nat) : NBest := (e.ops, n)

/-- The fixed part-of-speech set `pos` from the ranking branch. -/
def pos_set : List String := ["NOUN", "PROPN", "ADJ"]

/-- One iteration of the ranking loop body applied to the (shared) extractor:
steps 2-4 of the source (`load_document`, `candidate_selection`,
`candidate_weighting`). -/
def rankingStep (language normalization grammar : String) (window : Nat)
    (lda_model : Option String) (e : Extractor) (text_input : String) : Extractor :=
  Extractor.candidate_weighting
    (Extractor.candidate_selection
      (Extractor.load_document e text_input language normalization) grammar)
    window pos_set lda_model

/-- The `for text_input in model_input` loop of the ranking branch: the one
extractor `e` is threaded through every iteration (the source constructs it
once, before the loop), and each iteration appends `get_n_best(max_count)`
of the mutated extractor to `phrases_list`. -/
def rankingLoop (language normalization grammar : String) (window max_count : Nat)
    (lda_model : Option String) (e : Extractor) : List String → List NBest
  | [] => []
  | t :: ts =>
    let e2 := rankingStep language normalization grammar window lda_model e t
    Extractor.get_n_best e2 max_count ::
      rankingLoop language normalization grammar window max_count lda_model e2 ts

/-- Subscripting `self.model_params[key]`: `TypeError` when `model_params`
is still `None`, `KeyError` when the key is absent, else the value. -/
def getParam {α : Type} (mp : Option ModelParams) (sel : ModelParams → Option α)
    (key : String) : Except PyError α :=
  match mp with
  | none => Except.error PyError.typeError
  | some p =>
    match sel p with
    | none => Except.error (PyError.keyError key)
    | some v => Except.ok v

/-- `ModelHandler.inference` from the source.
Ranking branch: read the five configuration keys (in source order), build
one extractor, run the loop, return `phrases_list`.
Similarity branch: the statement `stoplist += stopwords.words(language)`
is executed before the per-row loop, and `language` is a local of
`inference` assigned only inside the ranking branch — in the `"DocSim"`
branch it is an unbound local, so the branch raises
`UnboundLocalError`/`NameError` for `language` before any similarity score
is computed; everything after that statement (row iteration, vocabulary
filtering against `self.model.wv`, `n_similarity`) is unreachable.
Any other `model_type` raises the unsupported-model `RuntimeError`. -/
def ModelHandler.inference (s : ModelHandler) (model_input : List String) :
    Except PyError (List NBest) :=
  if s.model_type == some "TopicalPageRank" then
    match getParam s.model_params ModelParams.grammar "grammar" with
    | Except.error e => Except.error e
    | Except.ok grammar =>
      match getParam s.model_params ModelParams.language "language" with
      | Except.error e => Except.error e
      | Except.ok language =>
        match getParam s.model_params ModelParams.normalization "normalization" with
        | Except.error e => Except.error e
        | Except.ok normalization =>
          match getParam s.model_params ModelParams.window "window" with
          | Except.error e => Except.error e
          | Except.ok window =>
            match getParam s.model_params ModelParams.max_count "max_count" with
            | Except.error e => Except.error e
            | Except.ok max_count =>
              Except.ok (rankingLoop language normalization grammar window max_count
                s.model TopicalPageRank_new model_input)
  else if s.model_type == some "DocSim" then
    Except.error (PyError.nameError "language")
  else
    Except.error (PyError.unsupportedModel (pyStr s.model_type))

/-- `ModelHandler.postprocess`: identity passthrough for the two recognized
model types, unsupported-model `RuntimeError` otherwise. -/
def ModelHandler.postprocess (s : ModelHandler) (inference_output : List NBest) :
    Except PyError (List NBest) :=
  if s.model_type == some "TopicalPageRank" || s.model_type == some "DocSim" then
    Except.ok inference_output
  else
    Except.error (PyError.unsupportedModel (pyStr s.model_type))

/-- `ModelHandler.handle`: preprocess, then inference, then postprocess.
The context argument is accepted but unused, as in the source. -/
def ModelHandler.handle (s : ModelHandler) (data : List Request) (_context : Context) :
    Except PyError (List NBest) :=
  match ModelHandler.preprocess s data with
  | Except.error e => Except.error e
  | Except.ok model_input =>
    match ModelHandler.inference s model_input with
    | Except.error e => Except.error e
    | Except.ok model_out => ModelHandler.postprocess s model_out

/-- The module-level `handle(data, context)` function: if the service is not
yet initialized, run `initialize` (whose exceptions propagate); then return
`None` if (and only if) `data is None` — an empty list is not `None` and
falls through to the full pipeline; otherwise run `_service.handle`.
The `ModelHandler` component of the result is the `_service` singleton's
state after the call. -/
def handle (svc : ModelHandler) (data : Option (List Request)) (context : Context) :
    ModelHandler × Except PyError (Option (List NBest)) :=
  match (if svc.initialized then (svc, none) else ModelHandler.init svc context) with
  | (svc1, some e) => (svc1, Except.error e)
  | (svc1, none) =>
    match data with
    | none => (svc1, Except.ok none)
    | some d =>
      match ModelHandler.handle svc1 d context with
      | Except.error e => (svc1, Except.error e)
      | Except.ok out => (svc1, Except.ok (some out))

/-- Params file content with every consumed key present (used by concrete
test fixtures). -/
def fullParams : ModelParams :=
  { grammar := some "G", language := some "en", normalization := some "stemming",
    window := some 10, max_count := some 3 }

/-- A `ModelHandler` as built by `__init__`. -/
def freshHandler : ModelHandler :=
  { initialized := false, model := none, model_type := none, model_params := none }

/-- An already-initialized handler in ranking mode. -/
def rankingHandler : ModelHandler :=
  { initialized := true, model := some "TopicalPageRank-model",
    model_type := some "TopicalPageRank", model_params := some fullParams }

/-- An already-initialized handler in similarity mode. -/
def docsimHandler : ModelHandler :=
  { initialized := true, model := some "DocSim-model",
    model_type := some "DocSim", model_params := some fullParams }

/-- A handler whose `model_type` is outside the two recognized values. -/
def fooHandler : ModelHandler :=
  { initialized := true, model := none, model_type := some "Foo", model_params := none }

/-- A context over a model directory with the given basenames; every params
file parses to `fullParams`. -/
def dirOf (fs : List String) : Context :=
  { modelDir := { files := fs, paramsOf := fun _ => fullParams } }

/-- A model directory with no files at all. -/
def ctxEmpty : Context := dirOf []

/-- A model directory whose params file has the unrecognized prefix `Foo`. -/
def ctxFoo : Context := dirOf ["Foo-params.json"]

/-- A ranking-model directory whose model artifact file is absent. -/
def ctxTPRonly : Context := dirOf ["TopicalPageRank-params.json"]

/-- A model directory with two files matching the params glob pattern. -/
def ctxTwoParams : Context :=
  dirOf ["TopicalPageRank-params.json", "B-params.json", "TopicalPageRank-model"]

/-- A well-formed similarity-model directory. -/
def ctxGood : Context := dirOf ["DocSim-params.json", "DocSim-model"]

/-- The successful value of an `Except`, when there is one. -/
def okValue {α : Type} (e : Except PyError α) : Option α :=
  match e with
  | Except.ok a => some a
  | Except.error _ => none

lemma wrapTry_fst (r : ModelHandler × Option PyError) : (wrapTry r).1 = r.1 := by
  rcases r with ⟨s4, _ | e⟩ <;> rfl

lemma wrapTry_some (r : ModelHandler × Option PyError) (e : PyError) (h : r.2 = some e) :
    (wrapTry r).2 = some PyError.memoryError := by
  rcases r with ⟨s4, oe⟩
  cases oe
  · simp at h
  · rfl

lemma read_model_params_ok_initialized (dir : ModelDir) (s s3 : ModelHandler) (cp : String)
    (h : read_model_params dir s cp = Except.ok s3) : s3.initialized = s.initialized := by
  unfold read_model_params at h
  split at h
  · cases h; rfl
  · exact Except.noConfusion h

lemma loadModelArtifact_fst_initialized (dir : ModelDir) (cp : String) (s : ModelHandler) :
    ((loadModelArtifact dir cp s).1).initialized = s.initialized := by
  unfold loadModelArtifact
  split
  · split <;> rfl
  · rfl

lemma loadModelArtifact_snd_state_indep (dir : ModelDir) (cp : String) (s1 s2 : ModelHandler) :
    (loadModelArtifact dir cp s1).2 = (loadModelArtifact dir cp s2).2 := by
  by_cases hc : cp = "TopicalPageRank" ∨ cp = "DocSim"
  · rcases hc with rfl | rfl
    · by_cases hm : "TopicalPageRank-model" ∈ dir.files <;> simp [loadModelArtifact, hm]
    · by_cases hm : "DocSim-model" ∈ dir.files <;> simp [loadModelArtifact, hm]
  · push_neg at hc
    have b1 : (cp == "TopicalPageRank") = false := by simpa using hc.1
    have b2 : (cp == "DocSim") = false := by simpa using hc.2
    simp [loadModelArtifact, b1, b2]

lemma init_try_fails (s : ModelHandler) (context : Context) (f : String)
    (rest : List String) (e : PyError)
    (hglob : context.modelDir.files.filter (fun x => strEndsWith x sym_file_suffix) = f :: rest)
    (hparams : context.modelDir.files.contains (derivePfx f ++ "-params.json") = true)
    (he : (loadModelArtifact context.modelDir (derivePfx f) s).2 = some e) :
    ( ModelHandler.init s context).2 = some PyError.memoryError := by
  simp only [ModelHandler.init, modelFilesPfx, hglob, read_model_params, hparams, if_true]
  exact wrapTry_some _ e (by rw [loadModelArtifact_snd_state_indep _ _ _ s]; exact he)

lemma rankingLoop_length (language normalization grammar : String) (window max_count : Nat)
    (lda_model : Option String) (e : Extractor) (ts : List String) :
    (rankingLoop language normalization grammar window max_count lda_model e ts).length
      = ts.length := by
  induction ts generalizing e with
  | nil => rfl
  | cons t ts ih => simp [rankingLoop, ih]

/-- Claim C2: for every handler initialized in similarity mode
(`model_type = "DocSim"`) and every non-empty preprocessed input,
`inference` raises an error before producing any similarity score: the
stop-word list construction reads the local `language`, which is never
bound in the `DocSim` branch (it is assigned only in the ranking branch),
so the branch raises for `language` before the per-row loop; and `self.model`
holds the filesystem path string `DocSim-model` assigned during artifact
resolution at initialization, not a loaded vector-model object. -/
theorem C2_docsim_inference_fails :
    (∀ (dir : ModelDir) (s : ModelHandler),
        ((loadModelArtifact dir "DocSim" s).1).model = some "DocSim-model")
    ∧ (∀ (s : ModelHandler) (input : List String), s.model_type = some "DocSim" →
        input ≠ [] →
        ModelHandler.inference s input = Except.error (PyError.nameError "language")) := by
  constructor
  · intro dir s
    unfold loadModelArtifact
    norm_num
    split <;> rfl
  · intro s input htype _hne
    simp [ModelHandler.inference, htype]

/-- Witness for C2 on a concrete similarity-mode handler and input. -/
theorem C2_witness :
    ((loadModelArtifact ctxGood.modelDir "DocSim" freshHandler).1).model = some "DocSim-model"
    ∧ ModelHandler.inference docsimHandler ["x"] = Except.error (PyError.nameError "language") :=
  ⟨C2_docsim_inference_fails.1 ctxGood.modelDir freshHandler,
   C2_docsim_inference_fails.2 docsimHandler ["x"] rfl (by decide)⟩

/-- Counterexample to claim C3 as stated: for the similarity model,
`preprocess` does not return tabular frames "instead" — on a concrete
request batch it returns exactly the ordered list of UTF-8 decoded texts,
identical to what the ranking-mode path returns for the same batch (the
source has one branch covering both model types). -/
theorem C3_counterexample :
    ModelHandler.preprocess docsimHandler [{ body := "hello world" }]
      = Except.ok ["hello world"]
    ∧ ModelHandler.preprocess docsimHandler [{ body := "hello world" }]
      = ModelHandler.preprocess rankingHandler [{ body := "hello world" }] :=
  ⟨rfl, rfl⟩

/-- Claim C3 (amended): for both supported model types, `preprocess`
decodes each request entry's byte payload as UTF-8 text and returns the
ordered list of decoded texts; the similarity model receives the same text
list, not tabular frames. -/
theorem C3_preprocess_text_list (s : ModelHandler) (request : List Request)
    (h : s.model_type = some "TopicalPageRank" ∨ s.model_type = some "DocSim") :
    ModelHandler.preprocess s request = Except.ok (request.map Request.body) := by
  rcases h with h | h <;> simp [ModelHandler.preprocess, h]

/-- Witness for C3 on a concrete similarity-mode handler and request. -/
theorem C3_witness :
    ModelHandler.preprocess docsimHandler [{ body := "a" }, { body := "b" }]
      = Except.ok ["a", "b"] :=
  C3_preprocess_text_list docsimHandler [{ body := "a" }, { body := "b" }] (Or.inr rfl)

/-- Claim C9: for every `model_type` outside the two recognized
identifiers, each of `preprocess`, `inference`, and `postprocess` raises
the unsupported-model error when called. -/
theorem C9_unsupported_stages (s : ModelHandler) (request : List Request)
    (model_input : List String) (out : List NBest)
    (h1 : s.model_type ≠ some "TopicalPageRank") (h2 : s.model_type ≠ some "DocSim") :
    ModelHandler.preprocess s request
      = Except.error (PyError.unsupportedModel (pyStr s.model_type))
    ∧ ModelHandler.inference s model_input
      = Except.error (PyError.unsupportedModel (pyStr s.model_type))
    ∧ ModelHandler.postprocess s out
      = Except.error (PyError.unsupportedModel (pyStr s.model_type)) := by
  have b1 : (s.model_type == some "TopicalPageRank") = false := by
    simpa using h1
  have b2 : (s.model_type == some "DocSim") = false := by
    simpa using h2
  refine ⟨?_, ?_, ?_⟩ <;>
    simp [ModelHandler.preprocess, ModelHandler.inference, ModelHandler.postprocess, b1, b2]

/-- Counterexample to claim C1 as stated: on an already-initialized
adapter, `handle([], context)` does NOT short-circuit — the source only
short-circuits on `data is None`, and an empty list is not `None`.  The
pipeline is invoked: in similarity mode the call surfaces the error raised
inside `inference`, and in ranking mode it returns an empty result list
(`Some []`), not the no-output `None`. -/
theorem C1_counterexample :
    handle docsimHandler (some []) ctxEmpty
      = (docsimHandler, Except.error (PyError.nameError "language"))
    ∧ handle rankingHandler (some []) ctxEmpty
      = (rankingHandler, Except.ok (some [])) := by
  constructor <;> rfl

/-- Claim C1 (amended): on an already-initialized adapter, `handle` returns
no output without invoking the pipeline only when the request batch is
absent (`None`); an empty-list batch is passed through the full
preprocess - inference - postprocess pipeline, yielding an empty result
list in ranking mode with complete params, and the inference-stage error in
similarity mode. -/
theorem C1_empty_batch_pipeline :
    (∀ (s : ModelHandler) (context : Context), s.initialized = true →
        handle s none context = (s, Except.ok none))
    ∧ (∀ (s : ModelHandler) (context : Context) (g l n : String) (w m : Nat),
        s.initialized = true → s.model_type = some "TopicalPageRank" →
        s.model_params = some ⟨some g, some l, some n, some w, some m⟩ →
        handle s (some []) context = (s, Except.ok (some [])))
    ∧ (∀ (s : ModelHandler) (context : Context), s.initialized = true →
        s.model_type = some "DocSim" →
        handle s (some []) context = (s, Except.error (PyError.nameError "language"))) := by
  refine ⟨?_, ?_, ?_⟩
  · intro s context hinit
    simp [handle, hinit]
  · intro s context g l n w m hinit htype hparams
    simp [handle, hinit, ModelHandler.handle, ModelHandler.preprocess,
      ModelHandler.inference, ModelHandler.postprocess, htype, hparams, getParam,
      rankingLoop]
  · intro s context hinit htype
    simp [handle, hinit, ModelHandler.handle, ModelHandler.preprocess,
      ModelHandler.inference, ModelHandler.postprocess, htype]

/-- Witness for C1 on concrete initialized handlers. -/
theorem C1_witness :
    handle docsimHandler none ctxEmpty = (docsimHandler, Except.ok none)
    ∧ handle rankingHandler (some []) ctxGood = (rankingHandler, Except.ok (some []))
    ∧ handle docsimHandler (some []) ctxGood
      = (docsimHandler, Except.error (PyError.nameError "language")) :=
  ⟨C1_empty_batch_pipeline.1 docsimHandler ctxEmpty rfl,
   C1_empty_batch_pipeline.2.1 rankingHandler ctxGood "G" "en" "stemming" 10 3 rfl rfl rfl,
   C1_empty_batch_pipeline.2.2 docsimHandler ctxGood rfl rfl⟩

/-- Counterexample to claim C4 as stated: ranking-mode `inference` does not
construct a fresh extractor per input text — the source constructs one
extractor before the batch loop and mutates it across iterations — so
per-document results are not independent of batch position: on the concrete
batch `["a", "b"]`, the result produced for `"b"` differs from the result
of running `inference` on `["b"]` alone (the shared extractor has
accumulated the operations for `"a"`). -/
theorem C4_counterexample :
    (okValue (ModelHandler.inference rankingHandler ["a", "b"])).bind (fun lst => lst.get? 1)
      ≠ (okValue (ModelHandler.inference rankingHandler ["b"])).bind (fun lst => lst.get? 0) := by
  decide

/-- Claim C4 (amended): in ranking mode, `inference` constructs a single
extractor once per call, before the loop, and reuses it across all texts of
the batch; consequently the result list has one entry per input text and
the first text's result coincides with a single-text run (it sees a fresh
extractor), while later texts are processed on the extractor state
accumulated from the earlier documents. -/
theorem C4_shared_extractor (s : ModelHandler) (g l n : String) (w m : Nat)
    (t : String) (ts : List String)
    (htype : s.model_type = some "TopicalPageRank")
    (hparams : s.model_params = some ⟨some g, some l, some n, some w, some m⟩) :
    (okValue (ModelHandler.inference s (t :: ts))).bind List.head?
      = (okValue (ModelHandler.inference s [t])).bind List.head?
    ∧ (okValue (ModelHandler.inference s (t :: ts))).map List.length
      = some (ts.length + 1) := by
  have hinf : ∀ input, ModelHandler.inference s input =
      Except.ok (rankingLoop l n g w m s.model TopicalPageRank_new input) := by
    intro input
    simp [ModelHandler.inference, htype, hparams, getParam]
  constructor
  · rw [hinf, hinf]
    simp [okValue, rankingLoop]
  · rw [hinf]
    simp [okValue, rankingLoop, rankingLoop_length]

/-- Witness for C4 on a concrete ranking-mode handler and batch. -/
theorem C4_witness :
    (okValue (ModelHandler.inference rankingHandler ["a", "b"])).bind List.head?
      = (okValue (ModelHandler.inference rankingHandler ["a"])).bind List.head?
    ∧ (okValue (ModelHandler.inference rankingHandler ["a", "b"])).map List.length
      = some 2 :=
  C4_shared_extractor rankingHandler "G" "en" "stemming" 10 3 "a" ["b"] rfl rfl

/-- Witness for C9 on a concrete handler with `model_type = "Foo"`. -/
theorem C9_witness :
    ModelHandler.preprocess fooHandler [] = Except.error (PyError.unsupportedModel "Foo")
    ∧ ModelHandler.inference fooHandler [] = Except.error (PyError.unsupportedModel "Foo")
    ∧ ModelHandler.postprocess fooHandler [] = Except.error (PyError.unsupportedModel "Foo") :=
  C9_unsupported_stages fooHandler [] [] [] (by decide) (by decide)

/-- Counterexample to claim C5 as stated: with a params file named
`Foo-params.json` (derived model prefix `Foo`, neither recognized
identifier), `initialize` fails — but with the bare generic `MemoryError`,
not with an unsupported-model error identifying the model: the internal
`RuntimeError("Model Foo not supported!")` is swallowed by the
`except Exception` clause. -/
theorem C5_counterexample :
    ( ModelHandler.init freshHandler ctxFoo).2 = some PyError.memoryError
    ∧ ( ModelHandler.init freshHandler ctxFoo).2 ≠ some (PyError.unsupportedModel "Foo") := by
  exact ⟨rfl, by decide⟩

/-- Claim C5 (amended): when the derived prefix is neither recognized
identifier, artifact resolution raises the unsupported-model error naming
the model, but `initialize` surfaces it as the bare generic `MemoryError`
carrying no identifying detail. -/
theorem C5_unsupported_surfaced :
    (∀ (dir : ModelDir) (cp : String) (s : ModelHandler),
        cp ≠ "TopicalPageRank" → cp ≠ "DocSim" →
        (loadModelArtifact dir cp s).2 = some (PyError.unsupportedModel cp))
    ∧ (∀ (s : ModelHandler) (context : Context) (f : String) (rest : List String),
        context.modelDir.files.filter (fun x => strEndsWith x sym_file_suffix) = f :: rest →
        derivePfx f ≠ "TopicalPageRank" → derivePfx f ≠ "DocSim" →
        context.modelDir.files.contains (derivePfx f ++ "-params.json") = true →
        ( ModelHandler.init s context).2 = some PyError.memoryError) := by
  constructor
  · intro dir cp s h1 h2
    have b1 : (cp == "TopicalPageRank") = false := by simpa using h1
    have b2 : (cp == "DocSim") = false := by simpa using h2
    simp [loadModelArtifact, b1, b2]
  · intro s context f rest hglob h1 h2 hparams
    refine init_try_fails s context f rest
      (PyError.unsupportedModel (derivePfx f)) hglob hparams ?_
    have b1 : (derivePfx f == "TopicalPageRank") = false := by simpa using h1
    have b2 : (derivePfx f == "DocSim") = false := by simpa using h2
    simp [loadModelArtifact, b1, b2]

/-- Witness for C5 on the concrete directory containing `Foo-params.json`. -/
theorem C5_witness :
    (loadModelArtifact ctxFoo.modelDir "Foo" freshHandler).2
      = some (PyError.unsupportedModel "Foo")
    ∧ ( ModelHandler.init freshHandler ctxFoo).2 = some PyError.memoryError :=
  ⟨C5_unsupported_surfaced.1 ctxFoo.modelDir "Foo" freshHandler (by decide) (by decide),
   C5_unsupported_surfaced.2 freshHandler ctxFoo "Foo-params.json" []
     (by decide) (by decide) (by decide) (by decide)⟩

/-- Counterexample to claim C6 as stated: when the params file is absent
(empty model directory) `initialize` fails with the `IndexError` from the
glob lookup, not a missing-file error; and when the ranking model artifact
file is absent, `initialize` surfaces the bare generic `MemoryError`, not a
missing-file error (the internal missing-file `RuntimeError` is swallowed
by the `except Exception` clause). -/
theorem C6_counterexample :
    ( ModelHandler.init freshHandler ctxEmpty).2 = some PyError.indexError
    ∧ ( ModelHandler.init freshHandler ctxTPRonly).2 = some PyError.memoryError :=
  ⟨rfl, rfl⟩

/-- Claim C6 (amended): when no file matches the params pattern,
`initialize` fails with the `IndexError` from the glob lookup; when the
`<prefix>-model` artifact is absent for a recognized model type, artifact
resolution raises a missing-file error internally, but `initialize`
surfaces it as the bare generic `MemoryError`. -/
theorem C6_missing_artifact_errors :
    (∀ (s : ModelHandler) (context : Context),
        context.modelDir.files.filter (fun x => strEndsWith x sym_file_suffix) = [] →
        ( ModelHandler.init s context).2 = some PyError.indexError)
    ∧ (∀ (dir : ModelDir) (cp : String) (s : ModelHandler),
        (cp = "TopicalPageRank" ∨ cp = "DocSim") →
        dir.files.contains (cp ++ "-model") = false →
        (loadModelArtifact dir cp s).2 = some (PyError.missingFile (cp ++ "-model")))
    ∧ (∀ (s : ModelHandler) (context : Context) (f : String) (rest : List String),
        context.modelDir.files.filter (fun x => strEndsWith x sym_file_suffix) = f :: rest →
        (derivePfx f = "TopicalPageRank" ∨ derivePfx f = "DocSim") →
        context.modelDir.files.contains (derivePfx f ++ "-params.json") = true →
        context.modelDir.files.contains (derivePfx f ++ "-model") = false →
        ( ModelHandler.init s context).2 = some PyError.memoryError) := by
  refine ⟨?_, ?_, ?_⟩
  · intro s context hglob
    simp [ModelHandler.init, modelFilesPfx, hglob]
  · intro dir cp s hcp hm
    rcases hcp with rfl | rfl
    · have hm2 : "TopicalPageRank-model" ∉ dir.files := by simpa using hm
      simp [loadModelArtifact, hm2]
    · have hm2 : "DocSim-model" ∉ dir.files := by simpa using hm
      simp [loadModelArtifact, hm2]
  · intro s context f rest hglob hcp hparams hm
    refine init_try_fails s context f rest
      (PyError.missingFile (derivePfx f ++ "-model")) hglob hparams ?_
    rcases hcp with hcp | hcp
    · have hm2 : "TopicalPageRank-model" ∉ context.modelDir.files := by
        rw [hcp] at hm; simpa using hm
      rw [hcp]
      simp [loadModelArtifact, hm2]
    · have hm2 : "DocSim-model" ∉ context.modelDir.files := by
        rw [hcp] at hm; simpa using hm
      rw [hcp]
      simp [loadModelArtifact, hm2]

/-- Witness for C6 on concrete directories (no params file at all; ranking
params file present but model artifact absent). -/
theorem C6_witness :
    ( ModelHandler.init freshHandler ctxEmpty).2 = some PyError.indexError
    ∧ (loadModelArtifact ctxTPRonly.modelDir "TopicalPageRank" freshHandler).2
      = some (PyError.missingFile "TopicalPageRank-model")
    ∧ ( ModelHandler.init freshHandler ctxTPRonly).2 = some PyError.memoryError :=
  ⟨C6_missing_artifact_errors.1 freshHandler ctxEmpty rfl,
   C6_missing_artifact_errors.2.1 ctxTPRonly.modelDir "TopicalPageRank" freshHandler
     (Or.inl rfl) (by decide),
   C6_missing_artifact_errors.2.2 freshHandler ctxTPRonly "TopicalPageRank-params.json" []
     (by decide) (Or.inl (by decide)) (by decide) (by decide)⟩

/-- Claim C7: every exception raised during artifact resolution (the `try`
block of `initialize`) is surfaced as the single generic fatal
`MemoryError`, carrying no distinguishing detail of the underlying cause:
whatever error `e` the resolution step produced, the surfaced error is the
payload-free `MemoryError`.  Initialization is attempted exactly once per
call and nothing in the handler retries it. -/
theorem C7_generic_failure (s : ModelHandler) (context : Context) (f : String)
    (rest : List String) (e : PyError)
    (hglob : context.modelDir.files.filter (fun x => strEndsWith x sym_file_suffix) = f :: rest)
    (hparams : context.modelDir.files.contains (derivePfx f ++ "-params.json") = true)
    (he : (loadModelArtifact context.modelDir (derivePfx f) s).2 = some e) :
    ( ModelHandler.init s context).2 = some PyError.memoryError :=
  init_try_fails s context f rest e hglob hparams he

/-- Witness for C7: the unsupported-model failure inside artifact
resolution for the `Foo-params.json` directory surfaces as `MemoryError`. -/
theorem C7_witness :
    ( ModelHandler.init freshHandler ctxFoo).2 = some PyError.memoryError :=
  C7_generic_failure freshHandler ctxFoo "Foo-params.json" []
    (PyError.unsupportedModel "Foo") (by decide) (by decide) (by decide)

/-- Counterexample to claim C8 as stated: with two files matching the
`*-params.json` pattern, initialization does not fail with a configuration
error — it silently derives the prefix from the first match and succeeds. -/
theorem C8_counterexample :
    (ctxTwoParams.modelDir.files.filter
        (fun x => strEndsWith x sym_file_suffix)).length = 2
    ∧ ( ModelHandler.init freshHandler ctxTwoParams).2 = none
    ∧ ( ModelHandler.init freshHandler ctxTwoParams).1.model_type
      = some "TopicalPageRank" := by
  exact ⟨rfl, rfl, rfl⟩

/-- Claim C8 (amended): the prefix is derived from the first file (in glob
order) matching the `*-params.json` suffix pattern; zero matches raise an
`IndexError`, and multiple matches are silently resolved to the first with
no configuration error. -/
theorem C8_first_match :
    (∀ dir : ModelDir,
        dir.files.filter (fun f => strEndsWith f sym_file_suffix) = [] →
        modelFilesPfx dir = Except.error PyError.indexError)
    ∧ (∀ (dir : ModelDir) (f : String) (rest : List String),
        dir.files.filter (fun x => strEndsWith x sym_file_suffix) = f :: rest →
        modelFilesPfx dir = Except.ok (derivePfx f)) := by
  constructor
  · intro dir h
    simp [modelFilesPfx, h]
  · intro dir f rest h
    simp [modelFilesPfx, h]

/-- Witness for C8: an empty directory raises `IndexError`; a directory
with two params-pattern matches resolves to the first one's prefix. -/
theorem C8_witness :
    modelFilesPfx ctxEmpty.modelDir = Except.error PyError.indexError
    ∧ modelFilesPfx ctxTwoParams.modelDir = Except.ok "TopicalPageRank" :=
  ⟨C8_first_match.1 ctxEmpty.modelDir rfl,
   C8_first_match.2 ctxTwoParams.modelDir "TopicalPageRank-params.json"
     ["B-params.json"] (by decide)⟩

/-- Claim C10: `initialize` sets the `initialized` flag to `true` as its
first action, so the handler ends initialized on every path, including
every failing one; and the module-level `handle` on an already-initialized
service skips initialization entirely — its behavior does not depend on the
context's model directory, and it leaves the service state unchanged — so a
failed initialization is never retried by later requests. -/
theorem C10_init_first :
    (∀ (s : ModelHandler) (context : Context),
        (( ModelHandler.init s context).1).initialized = true)
    ∧ (∀ (s : ModelHandler) (data : Option (List Request)) (c1 c2 : Context),
        s.initialized = true → handle s data c1 = handle s data c2)
    ∧ (∀ (s : ModelHandler) (data : Option (List Request)) (context : Context),
        s.initialized = true → (handle s data context).1 = s) := by
  refine ⟨?_, ?_, ?_⟩
  · intro s context
    simp only [ModelHandler.init]
    split
    · rfl
    · split
      · rfl
      next s3 hr =>
        rw [wrapTry_fst, loadModelArtifact_fst_initialized,
          read_model_params_ok_initialized _ _ _ _ hr]
  · intro s data c1 c2 h
    simp [handle, h, ModelHandler.handle]
  · intro s data context h
    simp only [handle, h, if_true]
    cases data with
    | none => rfl
    | some d =>
      cases hh : ModelHandler.handle s d context <;> simp [hh]

/-- Witness for C10: a failing initialization (unrecognized model) leaves
the handler initialized, and `handle` on an initialized service ignores the
context and leaves the service state unchanged. -/
theorem C10_witness :
    (( ModelHandler.init freshHandler ctxFoo).1).initialized = true
    ∧ handle docsimHandler (some []) ctxEmpty = handle docsimHandler (some []) ctxGood
    ∧ (handle docsimHandler (some []) ctxEmpty).1 = docsimHandler :=
  ⟨C10_init_first.1 freshHandler ctxFoo,
   C10_init_first.2.1 docsimHandler (some []) ctxEmpty ctxGood rfl,
   C10_init_first.2.2 docsimHandler (some []) ctxEmpty rfl⟩

end MME
